import Mathlib

/-!
Verification of the lifecycle/guard protocol of `WiresharkDialog`
(src/ui/qt/wireshark_dialog.h): a dialog base class that registers tap
listeners against a capture file and must destroy itself safely even when
the user closes it while a retap is in flight.

The repository snapshot contains only the header (declarations plus the
documented contract); the function bodies live in `wireshark_dialog.cpp`,
which is not part of the snapshot.  Every operation below whose body is
missing from the header is therefore modelled from the specification, and
its doc comment says so explicitly.

Observable side effects (bulk listener removal, object destruction, the
warning dialog on a failed registration) are recorded as an explicit
action trace so that ordering and exactly-once properties can be stated.
-/

/-- Observable actions emitted by the dialog's lifecycle operations:
`removeAll` is a call to `removeTapListeners`, `destroy` is the final
destruction of the dialog object, `warn` is the warning dialog shown when a
tap-listener registration fails. -/
inductive Act where
  | removeAll : Act
  | destroy : Act
  | warn : Act
deriving DecidableEq, Repr

/-- The state of a `WiresharkDialog`, mirroring the private data members
declared in src/ui/qt/wireshark_dialog.h lines 110 and 140-143:
`file_closed_`, `subtitle_`, `tap_listeners_`, `retap_depth_`,
`dialog_closed_`.  Tap listeners are identified by their `tap_data`
pointer, modelled as a natural number.  `retap_depth_` is an `int` in the
source, modelled as `Int`.  The extra field `destroyed` models whether the
object has been destructed (the spec's terminal `Destroyed` state); it is
not a C++ member, since a destroyed object has no members at all. -/
structure Panel where
  subtitle_ : String
  tap_listeners_ : List Nat
  retap_depth_ : Int
  dialog_closed_ : Bool
  file_closed_ : Bool
  destroyed : Bool
deriving DecidableEq, Repr

/-- Modelled from the spec: `removeAll()` of the ListenerRegistry
(`WiresharkDialog::removeTapListeners`, declared at header line 104, body
in the missing .cpp): "unregisters every tracked handle from the Session
and clears the set. Idempotent — safe to call when already empty ... and
multiple times." -/
def removeTapListeners (p : Panel) : Panel × List Act :=
  ({ p with tap_listeners_ := [] }, [Act.removeAll])

/-- Modelled from the spec: `WiresharkDialog::dialogCleanup` (declared at
header line 138, body in the missing .cpp), the teardown run on entering
the `Closed` state: "runs `removeAll()` then finalizes destruction" —
listener removal strictly before destruction, one call to each. -/
def dialogCleanup (p : Panel) : Panel × List Act :=
  ({ (removeTapListeners p).1 with destroyed := true },
    (removeTapListeners p).2 ++ [Act.destroy])

/-- Modelled from the spec: the `userRequestsClose` transition of the
LifecycleController (the common path of `accept`/`reject`, bodies in the
missing .cpp): if `retapDepth == 0`, enter `Closed` (teardown now);
if `retapDepth > 0`, enter `ClosePending` (record the pending close, do
not remove listeners, do not destroy). -/
def userRequestsClose (p : Panel) : Panel × List Act :=
  if p.retap_depth_ = 0 then
    dialogCleanup { p with dialog_closed_ := true }
  else
    ({ p with dialog_closed_ := true }, [])

/-- Modelled from the spec: `WiresharkDialog::accept` (header line 44,
body in the missing .cpp).  "user-initiated close via two distinct UI
affordances; both route through the same LifecycleController transition." -/
def accept (p : Panel) : Panel × List Act :=
  userRequestsClose p

/-- Modelled from the spec: `WiresharkDialog::reject` (header line 45,
body in the missing .cpp); routes through the same transition as
`accept`. -/
def reject (p : Panel) : Panel × List Act :=
  userRequestsClose p

/-- Modelled from the spec: `WiresharkDialog::beginRetapPackets` (header
line 57, body in the missing .cpp), RetapGuard `begin()`: "increments
`retapDepth`. No failure mode." -/
def beginRetapPackets (p : Panel) : Panel :=
  { p with retap_depth_ := p.retap_depth_ + 1 }

/-- Release-build decrement of the retap depth: "Decrementing below 0 is a
programming-contract violation (fatal in debug builds, clamped in
release)" — the depth is held at 0, never wrapping to a negative value. -/
def clampedDec (d : Int) : Int :=
  if 0 < d then d - 1 else 0

/-- Modelled from the spec: `WiresharkDialog::endRetapPackets` (header
line 66, body in the missing .cpp), RetapGuard `end()` in a release
build: "decrements `retapDepth`. If `retapDepth` reaches 0 and the panel
was marked closed during the guarded interval, triggers final teardown
(listener removal + object destruction) exactly once"; underflow is
clamped. -/
def endRetapPackets (p : Panel) : Panel × List Act :=
  if p.dialog_closed_ = true ∧ clampedDec p.retap_depth_ = 0 then
    dialogCleanup { p with retap_depth_ := clampedDec p.retap_depth_ }
  else
    ({ p with retap_depth_ := clampedDec p.retap_depth_ }, [])

/-- Modelled from the spec: RetapGuard `end()` in a debug build, where
decrementing below 0 is fatal ("must not be silently tolerated in testing
builds"): `none` models the fatal abort of the guarded operation. -/
def endRetapPacketsDebug (p : Panel) : Option (Panel × List Act) :=
  if p.retap_depth_ ≤ 0 then none else some (endRetapPackets p)

/-- Modelled from the spec: `WiresharkDialog::registerTapListener` (header
lines 95-99, body in the missing .cpp).  `ok` is the external session's
verdict on the registration request (the session may reject the filter, a
duplicate name, or be already closed); `tap_data` identifies the listener.
On success the listener is tracked in `tap_listeners_` and `true` is
returned; on failure "a warning dialog" is shown, the panel is unchanged
and `false` is returned — "registration failure is never fatal to the
panel." -/
def registerTapListener (ok : Bool) (tap_data : Nat) (p : Panel) :
    (Panel × List Act) × Bool :=
  if ok then
    (({ p with tap_listeners_ := p.tap_listeners_ ++ [tap_data] }, []), true)
  else
    ((p, [Act.warn]), false)

/-- Modelled from the spec: `WiresharkDialog::captureFileClosing` (header
line 124, body in the missing .cpp): the session's "closing" notification
— same lifecycle state with `sessionClosed = true`, listener cleanup is
triggered ("this can be used to disconnect taps"), and it "does not by
itself destroy the panel". -/
def captureFileClosing (p : Panel) : Panel × List Act :=
  removeTapListeners { p with file_closed_ := true }

/-- Modelled from the spec: `WiresharkDialog::captureFileClosed` (header
line 132, body in the missing .cpp): the session's "closed" notification —
"subclasses refresh their enabled/disabled presentation"; no lifecycle
state changes and no destruction. -/
def captureFileClosed (p : Panel) : Panel × List Act :=
  (p, [])

/-- The two session lifecycle notifications delivered to the panel
(spec §6: `notifyClosing()`, `notifyClosed()`). -/
inductive SessionNote where
  | closing : SessionNote
  | closed : SessionNote
deriving DecidableEq, Repr

/-- Modelled from the spec: the SessionEventBridge slot
`WiresharkDialog::captureEvent` (header line 135, body in the missing
.cpp): "receives notifications that the data source is about to close /
has closed, and forwards them into the LifecycleController". -/
def captureEvent (p : Panel) : SessionNote → Panel × List Act
  | SessionNote.closing => captureFileClosing p
  | SessionNote.closed => captureFileClosed p

/-- Session lifecycle phases of the external capture session. -/
inductive SessionPhase where
  | phOpen : SessionPhase
  | phClosing : SessionPhase
  | phClosed : SessionPhase
deriving DecidableEq, Repr

/-- Modelled from the spec: the external Session's notification protocol
(§6): "`notifyClosing()`, `notifyClosed()` — push notifications ...
delivered in that order, `closed` at most once."  `emitNote ph n` is the
session's next phase if it may emit `n` in phase `ph`. -/
def emitNote : SessionPhase → SessionNote → Option SessionPhase
  | SessionPhase.phOpen, SessionNote.closing => some SessionPhase.phClosing
  | SessionPhase.phClosing, SessionNote.closed => some SessionPhase.phClosed
  | _, _ => none

/-- `sessionTrace ph ns` holds when the session, starting in phase `ph`,
may deliver the notification sequence `ns`. -/
def sessionTrace : SessionPhase → List SessionNote → Bool
  | _, [] => true
  | ph, n :: ns =>
    match emitNote ph n with
    | some ph' => sessionTrace ph' ns
    | none => false

/-- Modelled from the spec: `WiresharkDialog::setWindowSubtitle` (header
line 74, body in the missing .cpp): "Set the window subtitle" — cosmetic
metadata, stored in `subtitle_`. -/
def setWindowSubtitle (subtitle : String) (p : Panel) : Panel :=
  { p with subtitle_ := subtitle }

/-- `WiresharkDialog::windowSubtitle` (header line 75, body inline in the
header): returns `subtitle_`. -/
def windowSubtitle (p : Panel) : String :=
  p.subtitle_

/-- `WiresharkDialog::dialogClosed` (header line 116, body inline in the
header): returns `dialog_closed_`. -/
def dialogClosed (p : Panel) : Bool :=
  p.dialog_closed_

/-- The events that can drive a `WiresharkDialog`: guard begin/end, a
user close request (accept or reject), the two session notifications, a
subtitle change, and a registration attempt (with the session's verdict
and the listener's `tap_data`). -/
inductive Ev where
  | beginRetap : Ev
  | endRetap : Ev
  | close : Ev
  | fileClosing : Ev
  | fileClosed : Ev
  | setSubtitle : String → Ev
  | register : Bool → Nat → Ev
deriving DecidableEq, Repr

/-- One event step of the dialog, returning the new state and the
observable actions the step performs. -/
def stepEv (p : Panel) : Ev → Panel × List Act
  | Ev.beginRetap => (beginRetapPackets p, [])
  | Ev.endRetap => endRetapPackets p
  | Ev.close => userRequestsClose p
  | Ev.fileClosing => captureEvent p SessionNote.closing
  | Ev.fileClosed => captureEvent p SessionNote.closed
  | Ev.setSubtitle s => (setWindowSubtitle s p, [])
  | Ev.register ok d => (registerTapListener ok d p).1

/-- Run a sequence of events, concatenating the observable actions. -/
def run (p : Panel) : List Ev → Panel × List Act
  | [] => (p, [])
  | e :: es =>
    ((run (stepEv p e).1 es).1, (stepEv p e).2 ++ (run (stepEv p e).1 es).2)

/-- A trace is legal when no event is delivered to an already destroyed
object: the spec makes `Destroyed` terminal and "all further calls against
the object are undefined (object no longer exists)". -/
def legalFrom (p : Panel) : List Ev → Bool
  | [] => true
  | e :: es => !p.destroyed && legalFrom (stepEv p e).1 es

/-- The state established by the constructor
`WiresharkDialog(QWidget &, CaptureFile &)`: no listeners, depth 0,
neither the dialog nor the file closed. -/
def initPanel : Panel :=
  { subtitle_ := ""
    tap_listeners_ := []
    retap_depth_ := 0
    dialog_closed_ := false
    file_closed_ := false
    destroyed := false }

/-- Number of `beginRetapPackets` events in a trace. -/
def beginCount : List Ev → Nat
  | [] => 0
  | Ev.beginRetap :: es => beginCount es + 1
  | _ :: es => beginCount es

/-- Number of `endRetapPackets` events in a trace. -/
def endCount : List Ev → Nat
  | [] => 0
  | Ev.endRetap :: es => endCount es + 1
  | _ :: es => endCount es

/-- Number of `destroy` actions in an action trace. -/
def destroyCount : List Act → Nat
  | [] => 0
  | Act.destroy :: a => destroyCount a + 1
  | _ :: a => destroyCount a

/-- A concrete dialog state: depth 1, close already requested while busy
(the `ClosePending` situation), one tracked listener. -/
def busyClosingPanel : Panel :=
  { subtitle_ := ""
    tap_listeners_ := [3]
    retap_depth_ := 1
    dialog_closed_ := true
    file_closed_ := false
    destroyed := false }

/-- `onlyGuardEvents es` holds when the trace consists solely of
`beginRetapPackets` / `endRetapPackets` calls. -/
def onlyGuardEvents : List Ev → Bool
  | [] => true
  | Ev.beginRetap :: es => onlyGuardEvents es
  | Ev.endRetap :: es => onlyGuardEvents es
  | _ :: _ => false

/-- Claim C2: in every state with `retapDepth == 0`, a user close request
(accept or reject) performs listener removal and destruction synchronously
within that same call, with a single call to each, removal first. -/
theorem immediate_close_teardown (p : Panel) (h : p.retap_depth_ = 0) :
    (accept p).2 = [Act.removeAll, Act.destroy] ∧
    (accept p).1.destroyed = true ∧
    (accept p).1.tap_listeners_ = [] ∧
    (reject p).2 = [Act.removeAll, Act.destroy] ∧
    (reject p).1.destroyed = true ∧
    (reject p).1.tap_listeners_ = [] := by
  simp [accept, reject, userRequestsClose, dialogCleanup, removeTapListeners, h]

/-- Witness for C2 at the freshly constructed dialog. -/
theorem immediate_close_teardown_witness :
    (accept initPanel).2 = [Act.removeAll, Act.destroy] ∧
    (accept initPanel).1.destroyed = true ∧
    (accept initPanel).1.tap_listeners_ = [] ∧
    (reject initPanel).2 = [Act.removeAll, Act.destroy] ∧
    (reject initPanel).1.destroyed = true ∧
    (reject initPanel).1.tap_listeners_ = [] :=
  immediate_close_teardown initPanel (by decide)

/-- Claim C5: `removeTapListeners` leaves the listener set empty, a second
call in a row changes nothing and raises no error action, and after the
teardown `dialogCleanup` the listener set is empty. -/
theorem removeTapListeners_idempotent (p : Panel) :
    (removeTapListeners p).1.tap_listeners_ = [] ∧
    (removeTapListeners (removeTapListeners p).1).1 = (removeTapListeners p).1 ∧
    (removeTapListeners (removeTapListeners p).1).2 = [Act.removeAll] ∧
    (dialogCleanup p).1.tap_listeners_ = [] := by
  simp [removeTapListeners, dialogCleanup]

/-- Claim C8: calling `endRetapPackets` with the depth already at 0 is
fatal in a debug build and clamped in a release build — the depth is held
at 0, it does not wrap to a negative value. -/
theorem guard_underflow (p : Panel) (h : p.retap_depth_ = 0) :
    endRetapPacketsDebug p = none ∧
    (endRetapPackets p).1.retap_depth_ = 0 := by
  refine ⟨by simp [endRetapPacketsDebug, h], ?_⟩
  by_cases hc : p.dialog_closed_ = true <;>
    simp [endRetapPackets, clampedDec, dialogCleanup, removeTapListeners, h, hc]

/-- Witness for C8 at the freshly constructed dialog. -/
theorem guard_underflow_witness :
    endRetapPacketsDebug initPanel = none ∧
    (endRetapPackets initPanel).1.retap_depth_ = 0 :=
  guard_underflow initPanel (by decide)

/-- Claim C9: `accept` and `reject` perform the very same
`userRequestsClose` lifecycle transition in every state. -/
theorem accept_reject_equivalent (p : Panel) :
    accept p = userRequestsClose p ∧
    reject p = userRequestsClose p ∧
    accept p = reject p :=
  ⟨rfl, rfl, rfl⟩

/-- Claim C10: after `setWindowSubtitle s`, the getter `windowSubtitle`
returns `s`, and every lifecycle-relevant field (`retap_depth_`,
`dialog_closed_`, `file_closed_`, `tap_listeners_`, and destruction
status) is unchanged. -/
theorem subtitle_frame (p : Panel) (s : String) :
    windowSubtitle (setWindowSubtitle s p) = s ∧
    (setWindowSubtitle s p).retap_depth_ = p.retap_depth_ ∧
    (setWindowSubtitle s p).dialog_closed_ = p.dialog_closed_ ∧
    (setWindowSubtitle s p).file_closed_ = p.file_closed_ ∧
    (setWindowSubtitle s p).tap_listeners_ = p.tap_listeners_ ∧
    (setWindowSubtitle s p).destroyed = p.destroyed := by
  simp [windowSubtitle, setWindowSubtitle]

/-- Claim C6: if listener `a` registers successfully and a later attempt
for listener `b` fails, then `a` is still registered afterwards, a warning
is surfaced, and the panel stays `Open` with its lifecycle state intact. -/
theorem register_failure_isolation (p : Panel) (a b : Nat)
    (hOpen : p.dialog_closed_ = false) (hAlive : p.destroyed = false) :
    (registerTapListener true a p).2 = true ∧
    a ∈ ((registerTapListener true a p).1.1).tap_listeners_ ∧
    (registerTapListener false b ((registerTapListener true a p).1.1)).2 = false ∧
    Act.warn ∈ (registerTapListener false b ((registerTapListener true a p).1.1)).1.2 ∧
    a ∈ ((registerTapListener false b ((registerTapListener true a p).1.1)).1.1).tap_listeners_ ∧
    ((registerTapListener false b ((registerTapListener true a p).1.1)).1.1).dialog_closed_ = false ∧
    ((registerTapListener false b ((registerTapListener true a p).1.1)).1.1).destroyed = false ∧
    ((registerTapListener false b ((registerTapListener true a p).1.1)).1.1).retap_depth_
      = p.retap_depth_ := by
  simp [registerTapListener, hOpen, hAlive]

/-- Witness for C6: listeners 1 and 2 at the freshly constructed dialog. -/
theorem register_failure_isolation_witness :
    (registerTapListener true 1 initPanel).2 = true ∧
    1 ∈ ((registerTapListener true 1 initPanel).1.1).tap_listeners_ ∧
    (registerTapListener false 2 ((registerTapListener true 1 initPanel).1.1)).2 = false ∧
    Act.warn ∈ (registerTapListener false 2 ((registerTapListener true 1 initPanel).1.1)).1.2 ∧
    1 ∈ ((registerTapListener false 2 ((registerTapListener true 1 initPanel).1.1)).1.1).tap_listeners_ ∧
    ((registerTapListener false 2 ((registerTapListener true 1 initPanel).1.1)).1.1).dialog_closed_ = false ∧
    ((registerTapListener false 2 ((registerTapListener true 1 initPanel).1.1)).1.1).destroyed = false ∧
    ((registerTapListener false 2 ((registerTapListener true 1 initPanel).1.1)).1.1).retap_depth_
      = initPanel.retap_depth_ :=
  register_failure_isolation initPanel 1 2 (by decide) (by decide)

lemma clampedDec_nonneg (d : Int) : 0 ≤ clampedDec d := by
  unfold clampedDec; split <;> omega

lemma clampedDec_of_pos (d : Int) (h : 0 < d) : clampedDec d = d - 1 := by
  simp [clampedDec, h]

/-- Every legal step from a live state keeps the depth nonnegative, and a
destroyed result state has depth 0. -/
lemma stepEv_inv (p : Panel) (e : Ev) (h0 : 0 ≤ p.retap_depth_)
    (ha : p.destroyed = false) :
    0 ≤ (stepEv p e).1.retap_depth_ ∧
    ((stepEv p e).1.destroyed = true → (stepEv p e).1.retap_depth_ = 0) := by
  cases e with
  | beginRetap =>
    refine ⟨?_, ?_⟩
    · simp [stepEv, beginRetapPackets]; omega
    · simp [stepEv, beginRetapPackets, ha]
  | endRetap =>
    by_cases hc : p.dialog_closed_ = true ∧ clampedDec p.retap_depth_ = 0
    · simp [stepEv, endRetapPackets, hc, dialogCleanup, removeTapListeners, hc.2]
    · simp [stepEv, endRetapPackets, hc, ha, clampedDec_nonneg]
  | close =>
    by_cases hz : p.retap_depth_ = 0
    · simp [stepEv, userRequestsClose, hz, dialogCleanup, removeTapListeners]
    · simp [stepEv, userRequestsClose, hz, ha, h0]
  | fileClosing =>
    simp [stepEv, captureEvent, captureFileClosing, removeTapListeners, ha, h0]
  | fileClosed =>
    simp [stepEv, captureEvent, captureFileClosed, ha, h0]
  | setSubtitle s =>
    simp [stepEv, setWindowSubtitle, ha, h0]
  | register ok d =>
    by_cases hok : ok = true <;>
      simp [stepEv, registerTapListener, hok, ha, h0]

/-- Invariant over legal runs: depth stays nonnegative and a destroyed
state has depth 0. -/
lemma run_inv (es : List Ev) (p : Panel)
    (h0 : 0 ≤ p.retap_depth_) (hd : p.destroyed = true → p.retap_depth_ = 0)
    (hleg : legalFrom p es = true) :
    0 ≤ (run p es).1.retap_depth_ ∧
    ((run p es).1.destroyed = true → (run p es).1.retap_depth_ = 0) := by
  induction es generalizing p with
  | nil => exact ⟨h0, hd⟩
  | cons e es ih =>
    rw [legalFrom, Bool.and_eq_true, Bool.not_eq_true'] at hleg
    have h := stepEv_inv p e h0 hleg.1
    simpa [run] using ih (stepEv p e).1 h.1 h.2 hleg.2

/-- Claim C1: a user close request while `retapDepth > 0` does not destroy
the panel (it only records the pending close and removes nothing); from a
live busy state, the one and only destroying event is the
`endRetapPackets` that brings the depth from 1 to 0 with the close
pending; and on every legal run from construction, a destroyed state has
depth 0 — the panel is never destroyed while `retapDepth > 0`. -/
theorem deferred_destruction :
    (∀ p, p.destroyed = false → 0 < p.retap_depth_ →
      (userRequestsClose p).1.destroyed = false ∧
      (userRequestsClose p).1.dialog_closed_ = true ∧
      (userRequestsClose p).2 = []) ∧
    (∀ p e, p.destroyed = false → 0 < p.retap_depth_ →
      ((stepEv p e).1.destroyed = true ↔
        e = Ev.endRetap ∧ p.retap_depth_ = 1 ∧ p.dialog_closed_ = true)) ∧
    (∀ es, legalFrom initPanel es = true →
      (run initPanel es).1.destroyed = true →
      (run initPanel es).1.retap_depth_ = 0) := by
  refine ⟨?_, ?_, ?_⟩
  · intro p ha hpos
    have hz : ¬ p.retap_depth_ = 0 := by omega
    simp [userRequestsClose, hz, ha]
  · intro p e ha hpos
    cases e with
    | endRetap =>
      by_cases hc : p.dialog_closed_ = true ∧ clampedDec p.retap_depth_ = 0
      · have h1 : p.retap_depth_ = 1 := by
          have := clampedDec_of_pos p.retap_depth_ hpos
          omega
        simp [stepEv, endRetapPackets, hc, dialogCleanup, removeTapListeners, h1, hc.1,
          clampedDec]
      · have hne : ¬ (p.retap_depth_ = 1 ∧ p.dialog_closed_ = true) := by
          intro hcon
          exact hc ⟨hcon.2, by rw [clampedDec_of_pos p.retap_depth_ hpos]; omega⟩
        have hdes : (stepEv p Ev.endRetap).1.destroyed = false := by
          simp [stepEv, endRetapPackets, hc, ha]
        rw [hdes]
        simp only [Bool.false_eq_true, false_iff, not_and]
        intro _ h1 h2
        exact hne ⟨h1, h2⟩
    | beginRetap => simp [stepEv, beginRetapPackets, ha]
    | close =>
      have hz : ¬ p.retap_depth_ = 0 := by omega
      simp [stepEv, userRequestsClose, hz, ha]
    | fileClosing =>
      simp [stepEv, captureEvent, captureFileClosing, removeTapListeners, ha]
    | fileClosed => simp [stepEv, captureEvent, captureFileClosed, ha]
    | setSubtitle s => simp [stepEv, setWindowSubtitle, ha]
    | register ok d =>
      by_cases hok : ok = true <;>
        simp [stepEv, registerTapListener, hok, ha]
  · intro es hleg
    exact (run_inv es initPanel (by decide) (by decide) hleg).2

/-- Witness for C1: close while busy does not destroy; the final
`endRetapPackets` does; and the three-event legal run begin, close, end
ends destroyed with depth 0. -/
theorem deferred_destruction_witness :
    ((userRequestsClose busyClosingPanel).1.destroyed = false ∧
     (userRequestsClose busyClosingPanel).1.dialog_closed_ = true ∧
     (userRequestsClose busyClosingPanel).2 = []) ∧
    ((stepEv busyClosingPanel Ev.endRetap).1.destroyed = true ↔
      Ev.endRetap = Ev.endRetap ∧ busyClosingPanel.retap_depth_ = 1 ∧
      busyClosingPanel.dialog_closed_ = true) ∧
    (run initPanel [Ev.beginRetap, Ev.close, Ev.endRetap]).1.retap_depth_ = 0 :=
  ⟨deferred_destruction.1 busyClosingPanel (by decide) (by decide),
   deferred_destruction.2.1 busyClosingPanel Ev.endRetap (by decide) (by decide),
   deferred_destruction.2.2 [Ev.beginRetap, Ev.close, Ev.endRetap]
     (by decide) (by decide)⟩

lemma destroyCount_append (a b : List Act) :
    destroyCount (a ++ b) = destroyCount a + destroyCount b := by
  induction a with
  | nil => simp [destroyCount]
  | cons x a ih => cases x <;> simp [destroyCount, ih]; omega

lemma destroyCount_of_not_mem (l : List Act) (h : Act.destroy ∉ l) :
    destroyCount l = 0 := by
  induction l with
  | nil => rfl
  | cons x l ih =>
    rw [List.mem_cons, not_or] at h
    cases x with
    | destroy => exact absurd rfl h.1
    | removeAll => simpa [destroyCount] using ih h.2
    | warn => simpa [destroyCount] using ih h.2

/-- A step that emits `destroy` emits exactly the action sequence
`[removeAll, destroy]` and leaves the object destroyed. -/
lemma stepEv_destroy_acts (p : Panel) (e : Ev)
    (h : Act.destroy ∈ (stepEv p e).2) :
    (stepEv p e).2 = [Act.removeAll, Act.destroy] ∧
    (stepEv p e).1.destroyed = true := by
  cases e with
  | beginRetap => simp [stepEv] at h
  | endRetap =>
    by_cases hc : p.dialog_closed_ = true ∧ clampedDec p.retap_depth_ = 0
    · simp [stepEv, endRetapPackets, hc, dialogCleanup, removeTapListeners]
    · simp [stepEv, endRetapPackets, hc] at h
  | close =>
    by_cases hz : p.retap_depth_ = 0
    · simp [stepEv, userRequestsClose, hz, dialogCleanup, removeTapListeners]
    · simp [stepEv, userRequestsClose, hz] at h
  | fileClosing =>
    simp [stepEv, captureEvent, captureFileClosing, removeTapListeners] at h
  | fileClosed => simp [stepEv, captureEvent, captureFileClosed] at h
  | setSubtitle s => simp [stepEv, setWindowSubtitle] at h
  | register ok d =>
    by_cases hok : ok = true <;> simp [stepEv, registerTapListener, hok] at h

/-- Over a legal run, destruction happens at most once. -/
lemma run_destroyCount (es : List Ev) (p : Panel)
    (hleg : legalFrom p es = true) :
    destroyCount (run p es).2 ≤ 1 := by
  induction es generalizing p with
  | nil => simp [run, destroyCount]
  | cons e es ih =>
    rw [legalFrom, Bool.and_eq_true, Bool.not_eq_true'] at hleg
    by_cases hd : Act.destroy ∈ (stepEv p e).2
    · obtain ⟨hacts, hdes⟩ := stepEv_destroy_acts p e hd
      cases es with
      | nil => simp [run, hacts, destroyCount]
      | cons e' es' =>
        rw [legalFrom, Bool.and_eq_true, Bool.not_eq_true'] at hleg
        rw [hleg.2.1] at hdes
        exact absurd hdes (by simp)
    · have h0 : destroyCount (stepEv p e).2 = 0 :=
        destroyCount_of_not_mem (stepEv p e).2 hd
      simpa [run, destroyCount_append, h0] using ih (stepEv p e).1 hleg.2

/-- Claim C4: on every path that destroys the panel, `removeTapListeners`
executes strictly before destruction within the destroying step — the
step's observable actions are exactly `[removeAll, destroy]`, one call to
each — and over any legal run from construction the panel is destroyed at
most once. -/
theorem cleanup_before_destruction :
    (∀ p e, Act.destroy ∈ (stepEv p e).2 →
      (stepEv p e).2 = [Act.removeAll, Act.destroy]) ∧
    (∀ es, legalFrom initPanel es = true →
      destroyCount (run initPanel es).2 ≤ 1) := by
  refine ⟨?_, ?_⟩
  · intro p e h
    exact (stepEv_destroy_acts p e h).1
  · intro es hleg
    exact run_destroyCount es initPanel hleg

/-- Witness for C4: the immediate close at depth 0 and a legal
begin-close-end run. -/
theorem cleanup_before_destruction_witness :
    (stepEv initPanel Ev.close).2 = [Act.removeAll, Act.destroy] ∧
    destroyCount (run initPanel [Ev.beginRetap, Ev.close, Ev.endRetap]).2 ≤ 1 :=
  ⟨cleanup_before_destruction.1 initPanel Ev.close (by decide),
   cleanup_before_destruction.2 [Ev.beginRetap, Ev.close, Ev.endRetap] (by decide)⟩

lemma onlyGuardEvents_take (es : List Ev) (n : Nat)
    (h : onlyGuardEvents es = true) : onlyGuardEvents (List.take n es) = true := by
  induction es generalizing n with
  | nil => simp [onlyGuardEvents]
  | cons e es ih =>
    cases n with
    | zero => simp [onlyGuardEvents]
    | succ n =>
      cases e with
      | beginRetap =>
        simpa [onlyGuardEvents] using ih n (by simpa [onlyGuardEvents] using h)
      | endRetap =>
        simpa [onlyGuardEvents] using ih n (by simpa [onlyGuardEvents] using h)
      | close => simp [onlyGuardEvents] at h
      | fileClosing => simp [onlyGuardEvents] at h
      | fileClosed => simp [onlyGuardEvents] at h
      | setSubtitle s => simp [onlyGuardEvents] at h
      | register ok d => simp [onlyGuardEvents] at h

/-- Depth bookkeeping of a trace of guard calls whose every prefix has at
least as many begins as ends: the final depth is the starting depth plus
begins minus ends (no clamping ever fires, no teardown runs). -/
lemma run_guard_depth (es : List Ev) (p : Panel)
    (hBE : onlyGuardEvents es = true)
    (hcl : p.dialog_closed_ = false)
    (h0 : 0 ≤ p.retap_depth_)
    (hL : ∀ n, n ≤ es.length →
      (endCount (List.take n es) : Int) ≤ beginCount (List.take n es) + p.retap_depth_) :
    (run p es).1.retap_depth_ = p.retap_depth_ + beginCount es - endCount es := by
  induction es generalizing p with
  | nil => simp [run, beginCount, endCount]
  | cons e es ih =>
    cases e with
    | beginRetap =>
      have hBE' : onlyGuardEvents es = true := by
        simpa [onlyGuardEvents] using hBE
      have hL' : ∀ n, n ≤ es.length →
          (endCount (List.take n es) : Int) ≤
            beginCount (List.take n es) + (beginRetapPackets p).retap_depth_ := by
        intro n hn
        have hb := hL (n + 1) (by simp only [List.length_cons]; omega)
        simp only [List.take_succ_cons, endCount, beginCount, beginRetapPackets] at hb ⊢
        push_cast at hb ⊢
        omega
      have hres := ih (beginRetapPackets p) hBE'
        (by simp [beginRetapPackets, hcl])
        (by simp only [beginRetapPackets]; omega) hL'
      simp only [run, stepEv]
      rw [hres]
      simp only [beginCount, endCount, beginRetapPackets]
      push_cast
      omega
    | endRetap =>
      have hBE' : onlyGuardEvents es = true := by
        simpa [onlyGuardEvents] using hBE
      have h1 : (1 : Int) ≤ p.retap_depth_ := by
        have hb := hL 1 (by simp only [List.length_cons]; omega)
        simp only [List.take_succ_cons, List.take_zero, endCount, beginCount] at hb
        push_cast at hb
        omega
      have hcd : clampedDec p.retap_depth_ = p.retap_depth_ - 1 :=
        clampedDec_of_pos p.retap_depth_ (by omega)
      have hstep : (stepEv p Ev.endRetap).1 =
          { p with retap_depth_ := p.retap_depth_ - 1 } := by
        simp [stepEv, endRetapPackets, hcl, hcd]
      have hL' : ∀ n, n ≤ es.length →
          (endCount (List.take n es) : Int) ≤
            beginCount (List.take n es) + (p.retap_depth_ - 1) := by
        intro n hn
        have hb := hL (n + 1) (by simp only [List.length_cons]; omega)
        simp only [List.take_succ_cons, endCount, beginCount] at hb
        push_cast at hb ⊢
        omega
      have hres := ih { p with retap_depth_ := p.retap_depth_ - 1 } hBE'
        (by simpa using hcl) (by simp; omega) hL'
      simp only [run]
      rw [hstep, hres]
      simp only [beginCount, endCount]
      push_cast
      omega
    | close => simp [onlyGuardEvents] at hBE
    | fileClosing => simp [onlyGuardEvents] at hBE
    | fileClosed => simp [onlyGuardEvents] at hBE
    | setSubtitle s => simp [onlyGuardEvents] at hBE
    | register ok d => simp [onlyGuardEvents] at hBE

/-- Claim C3: events other than `beginRetapPackets`/`endRetapPackets`
never change the depth, and along any LIFO-paired trace of guard calls
from construction the depth at every point equals the number of unmatched
begins — matched increment/decrement pairs only — and never drops below
0. -/
theorem guard_depth_pairing :
    (∀ p e, e ≠ Ev.beginRetap → e ≠ Ev.endRetap →
      (stepEv p e).1.retap_depth_ = p.retap_depth_) ∧
    (∀ es, onlyGuardEvents es = true →
      (∀ n, n ≤ es.length →
        endCount (List.take n es) ≤ beginCount (List.take n es)) →
      ∀ n, n ≤ es.length →
        (run initPanel (List.take n es)).1.retap_depth_ =
          (beginCount (List.take n es) : Int) - endCount (List.take n es) ∧
        0 ≤ (run initPanel (List.take n es)).1.retap_depth_) := by
  refine ⟨?_, ?_⟩
  · intro p e h1 h2
    cases e with
    | beginRetap => exact absurd rfl h1
    | endRetap => exact absurd rfl h2
    | close =>
      by_cases hz : p.retap_depth_ = 0 <;>
        simp [stepEv, userRequestsClose, hz, dialogCleanup, removeTapListeners]
    | fileClosing => simp [stepEv, captureEvent, captureFileClosing, removeTapListeners]
    | fileClosed => simp [stepEv, captureEvent, captureFileClosed]
    | setSubtitle s => simp [stepEv, setWindowSubtitle]
    | register ok d =>
      by_cases hok : ok = true <;> simp [stepEv, registerTapListener, hok]
  · intro es hBE hL n hn
    have hBEt : onlyGuardEvents (List.take n es) = true :=
      onlyGuardEvents_take es n hBE
    have hLt : ∀ m, m ≤ (List.take n es).length →
        (endCount (List.take m (List.take n es)) : Int) ≤
          beginCount (List.take m (List.take n es)) + initPanel.retap_depth_ := by
      intro m hm
      rw [List.length_take] at hm
      have hmn : m ≤ n := le_trans hm (min_le_left _ _)
      have hme : m ≤ es.length := le_trans hm (min_le_right _ _)
      rw [List.take_take, Nat.min_eq_left hmn]
      have hc := hL m hme
      simp only [initPanel]
      omega
    have hrun := run_guard_depth (List.take n es) initPanel hBEt rfl
      (by decide) hLt
    have hcount := hL n hn
    constructor
    · rw [hrun]
      simp only [initPanel]
      omega
    · rw [hrun]
      simp only [initPanel]
      omega

/-- Witness for C3 on the nested trace begin, begin, end, end. -/
theorem guard_depth_pairing_witness :
    (stepEv initPanel Ev.close).1.retap_depth_ = initPanel.retap_depth_ ∧
    ((run initPanel
        (List.take 4 [Ev.beginRetap, Ev.beginRetap, Ev.endRetap, Ev.endRetap])).1.retap_depth_ =
      (beginCount (List.take 4 [Ev.beginRetap, Ev.beginRetap, Ev.endRetap, Ev.endRetap]) : Int) -
        endCount (List.take 4 [Ev.beginRetap, Ev.beginRetap, Ev.endRetap, Ev.endRetap]) ∧
      0 ≤ (run initPanel
        (List.take 4 [Ev.beginRetap, Ev.beginRetap, Ev.endRetap, Ev.endRetap])).1.retap_depth_) :=
  ⟨guard_depth_pairing.1 initPanel Ev.close (by decide) (by decide),
   guard_depth_pairing.2 [Ev.beginRetap, Ev.beginRetap, Ev.endRetap, Ev.endRetap]
     (by decide) (by decide) 4 (by decide)⟩

/-- The session's notification protocol permits only the traces
`[]`, `[closing]` and `[closing, closed]`. -/
lemma sessionTrace_shape (ns : List SessionNote)
    (h : sessionTrace SessionPhase.phOpen ns = true) :
    ns = [] ∨ ns = [SessionNote.closing] ∨
      ns = [SessionNote.closing, SessionNote.closed] := by
  rcases ns with _ | ⟨n1, ns⟩
  · exact Or.inl rfl
  cases n1 with
  | closed => simp [sessionTrace, emitNote] at h
  | closing =>
    rcases ns with _ | ⟨n2, ns⟩
    · exact Or.inr (Or.inl rfl)
    cases n2 with
    | closing => simp [sessionTrace, emitNote] at h
    | closed =>
      rcases ns with _ | ⟨n3, ns⟩
      · exact Or.inr (Or.inr rfl)
      · cases n3 <;> simp [sessionTrace, emitNote] at h

/-- Claim C7: in every notification sequence the session may deliver, a
"closed" notification is always preceded by the "closing" notification;
and neither notification, as handled by `captureEvent`, by itself destroys
the panel. -/
theorem notification_ordering :
    (∀ ns, sessionTrace SessionPhase.phOpen ns = true →
      ∀ i : Nat, ns[i]? = some SessionNote.closed →
        ∃ j : Nat, j < i ∧ ns[j]? = some SessionNote.closing) ∧
    (∀ p, (captureEvent p SessionNote.closing).1.destroyed = p.destroyed ∧
          (captureEvent p SessionNote.closed).1.destroyed = p.destroyed) := by
  refine ⟨?_, ?_⟩
  · intro ns h i hi
    rcases sessionTrace_shape ns h with rfl | rfl | rfl
    · simp at hi
    · match i with
      | 0 => simp at hi
      | n + 1 => simp at hi
    · match i with
      | 0 => simp at hi
      | 1 => exact ⟨0, by omega, rfl⟩
      | n + 2 => simp at hi
  · intro p
    exact ⟨by simp [captureEvent, captureFileClosing, removeTapListeners],
      by simp [captureEvent, captureFileClosed]⟩

/-- Witness for C7 on the full lifecycle trace closing, closed. -/
theorem notification_ordering_witness :
    ∃ j : Nat, j < 1 ∧
      [SessionNote.closing, SessionNote.closed][j]? = some SessionNote.closing :=
  notification_ordering.1 [SessionNote.closing, SessionNote.closed]
    (by decide) 1 (by decide)
